import Mathlib

/-!
The program tty_attach: the duplex relay between a serial device and the tty
bus.

A shallow embedding of `src/tty_attach.c`.  The program is a sequence of
system calls; every call site is modelled by a function that takes the answer
of the operating system as an argument, records the call in a trace and
updates the variables of `main`.  The relay loop `for (;;)` is unfolded over a
list of per-iteration answers.
-/

namespace TtyAttach

/-! ## Constants -/

/-- Capacity of the transfer buffer, `#define BUFFER_SIZE 4096`. -/
def BUFFER_SIZE : Nat := 4096

/-- Event bit `POLLIN` of `<sys/poll.h>` (Linux value). -/
def POLLIN : Nat := 0x001

/-- Event bit `POLLOUT` of `<sys/poll.h>` (Linux value). -/
def POLLOUT : Nat := 0x004

/-- Event bit `POLLERR` of `<sys/poll.h>` (Linux value). -/
def POLLERR : Nat := 0x008

/-- Event bit `POLLHUP` of `<sys/poll.h>` (Linux value). -/
def POLLHUP : Nat := 0x010

/-- Event bit `POLLNVAL` of `<sys/poll.h>` (Linux value). -/
def POLLNVAL : Nat := 0x020

/-- Argument of `exit` in `usage`: `exit(2)`. -/
def EXIT_USAGE : Int := 2

/-- Argument of `exit` in `tty_connect`: `exit(-1)`. -/
def EXIT_CONNECT : Int := -1

/-- Argument of `exit` after a failed device open: `exit(3)`. -/
def EXIT_OPEN : Int := 3

/-- Argument of `exit` on a poll failure or a hang-up: `exit(1)`. -/
def EXIT_POLL : Int := 1

/-- Exit status seen by the parent process: the low eight bits of the
argument of `exit`. -/
def exitStatus (code : Int) : Nat := (code % 256).toNat

/-- Conversion of an `int` to `size_t` (64 bits), as happens to the third
argument of `write`. -/
def toSizeT (r : Int) : Nat := (r % 2 ^ 64).toNat

/-- Truth value of the C expression `revents & FLAG`. -/
def test (revents flag : Nat) : Bool := revents &&& flag != 0

/-! ## Data -/

/-- A C string: its bytes, without the terminating NUL. -/
abbrev CStr := List Nat

/-- The C type `struct pollfd`. -/
structure Pollfd where
  fd : Int
  events : Nat
  revents : Nat
deriving DecidableEq, Repr

/-- Diagnostics written to stderr, syslog or both. -/
inductive Diag where
  | usageText
  | connecting
  | cannotConnect
  | gpsWarning
  | gpsInfo
  | openingDevice
  | pollError
  | deviceBusy
deriving DecidableEq, Repr

/-- Observable actions of the process, with the answer of the system where
the program looks at it.  For `write`, `count` is the length argument and
`data` the bytes of the source array that it covers. -/
inductive Event where
  | diag (d : Diag)
  | daemon
  | connect (path : CStr) (ret : Int)
  | gpsEnable (dev : CStr) (status : Int)
  | openDev (dev : CStr) (ret : Int)
  | poll (fds : List (Int × Nat)) (timeout : Int) (ret : Int) (revents : List Nat)
  | read (fd : Int) (count : Nat) (ret : Int) (data : List Nat)
  | write (fd : Int) (count : Nat) (data : List Nat)
deriving DecidableEq, Repr

/-- How a fragment of `main` ends: control goes on, or `exit(code)`. -/
inductive Outcome where
  | running
  | exited (code : Int)
deriving DecidableEq, Repr

/-- The statics and the locals of `main`. -/
structure MainState where
  tty_bus_path : Option CStr
  devname : Option CStr
  init_string : Option CStr
  fd : Int
  pfd0 : Pollfd
  pfd1 : Pollfd
  pollret : Int
  r : Int
  buffer : List Nat
  realdev : Int
  daemonize : Bool
  gps : Bool
deriving DecidableEq, Repr

/-- Result of running a fragment: what it did, the variables afterwards and
how it ended. -/
structure Step where
  trace : List Event
  state : MainState
  outcome : Outcome
deriving DecidableEq, Repr

/-- Sequential composition: the second fragment runs only if the first one
did not exit. -/
def Step.andThen (a : Step) (f : MainState → Step) : Step :=
  match a.outcome with
  | Outcome.exited c => ⟨a.trace, a.state, Outcome.exited c⟩
  | Outcome.running =>
    let b := f a.state
    ⟨a.trace ++ b.trace, b.state, b.outcome⟩

/-- Answer of `poll` on one descriptor. -/
structure PollAns where
  ret : Int
  revents : Nat
deriving DecidableEq, Repr

/-- Answer of the main `poll` on the two descriptors. -/
structure PollAns2 where
  ret : Int
  revents0 : Nat
  revents1 : Nat
deriving DecidableEq, Repr

/-- Answer of `read`: the return value and the bytes stored in the buffer. -/
structure ReadAns where
  ret : Int
  data : List Nat
deriving DecidableEq, Repr

/-- Answers of the system calls of one iteration of the relay loop, one per
call site. -/
structure IterEnv where
  mainPoll : PollAns2
  devRead : ReadAns
  busPoll : PollAns
  busRead : ReadAns
  devPoll : PollAns
deriving DecidableEq, Repr

/-- Contract of `poll(2)` for one descriptor: a failure is negative; a
timeout returns 0 with `revents` cleared; otherwise 1 is returned and
`revents` is not empty and holds only requested events or
`POLLERR`, `POLLHUP`, `POLLNVAL`. -/
def pollConforms (events : Nat) (a : PollAns) : Prop :=
  a.ret < 0 ∨ (a.ret = 0 ∧ a.revents = 0) ∨
    (a.ret = 1 ∧ a.revents ≠ 0 ∧
      a.revents &&& (events ||| POLLERR ||| POLLHUP ||| POLLNVAL) = a.revents)

instance (events : Nat) (a : PollAns) : Decidable (pollConforms events a) := by
  unfold pollConforms; infer_instance

/-- Contract of `read(fd, buffer, BUFFER_SIZE)`: -1 on failure, else the
number of bytes stored, at most the capacity. -/
def readConforms (a : ReadAns) : Prop :=
  (a.ret = -1 ∧ a.data = []) ∨
    (0 ≤ a.ret ∧ a.ret ≤ BUFFER_SIZE ∧ (a.data.length : Int) = a.ret)

instance (a : ReadAns) : Decidable (readConforms a) := by
  unfold readConforms; infer_instance

/-! ## The relay loop (lines 150-192) -/

/-- Contents of `buffer` after `read` stored `data` at its start. -/
def readInto (buffer : List Nat) (data : List Nat) : List Nat :=
  data ++ buffer.drop data.length

/-- Lines 167-178: the device to bus transfer. -/
def deviceToBus (env : IterEnv) (s : MainState) : Step :=
  if test s.pfd0.revents POLLIN then
    -- r = read(realdev, buffer, BUFFER_SIZE);
    let s1 := { s with r := env.devRead.ret, buffer := readInto s.buffer env.devRead.data }
    let e1 := Event.read s.realdev BUFFER_SIZE env.devRead.ret env.devRead.data
    -- pfd[1].events = POLLOUT;
    let s2 := { s1 with pfd1 := { s1.pfd1 with events := POLLOUT } }
    -- pollret = poll(&pfd[1], 1, 50);
    let e2 := Event.poll [(s2.pfd1.fd, s2.pfd1.events)] 50 env.busPoll.ret [env.busPoll.revents]
    let s3 := { s2 with pollret := env.busPoll.ret,
                        pfd1 := { s2.pfd1 with revents := env.busPoll.revents } }
    if s3.pollret < 0 then
      ⟨[e1, e2, Event.diag Diag.pollError], s3, Outcome.exited EXIT_POLL⟩
    else if test s3.pfd1.revents POLLOUT then
      -- write(fd, buffer, r);
      ⟨[e1, e2, Event.write s3.fd (toSizeT s3.r) (s3.buffer.take (toSizeT s3.r))],
        s3, Outcome.running⟩
    else
      ⟨[e1, e2], s3, Outcome.running⟩
  else
    ⟨[], s, Outcome.running⟩

/-- Lines 179-191: the bus to device transfer. -/
def busToDevice (env : IterEnv) (s : MainState) : Step :=
  if test s.pfd1.revents POLLIN then
    -- r = read(fd, buffer, BUFFER_SIZE);
    let s1 := { s with r := env.busRead.ret, buffer := readInto s.buffer env.busRead.data }
    let e1 := Event.read s.fd BUFFER_SIZE env.busRead.ret env.busRead.data
    -- pfd[0].fd = realdev; pfd[0].events = POLLOUT;
    let s2 := { s1 with pfd0 := { s1.pfd0 with fd := s1.realdev, events := POLLOUT } }
    -- pollret = poll(&pfd[0], 1, 50);
    let e2 := Event.poll [(s2.pfd0.fd, s2.pfd0.events)] 50 env.devPoll.ret [env.devPoll.revents]
    let s3 := { s2 with pollret := env.devPoll.ret,
                        pfd0 := { s2.pfd0 with revents := env.devPoll.revents } }
    if s3.pollret < 0 then
      ⟨[e1, e2, Event.diag Diag.pollError], s3, Outcome.exited EXIT_POLL⟩
    else if test s3.pfd0.revents POLLOUT then
      -- write(realdev, buffer, r);
      ⟨[e1, e2, Event.write s3.realdev (toSizeT s3.r) (s3.buffer.take (toSizeT s3.r))],
        s3, Outcome.running⟩
    else
      ⟨[e1, e2], s3, Outcome.running⟩
  else
    ⟨[], s, Outcome.running⟩

/-- One parenthesis of lines 164-165:
`revents & POLLHUP || revents & POLLERR || revents & POLLNVAL`. -/
def fatal (revents : Nat) : Bool :=
  (test revents POLLHUP || test revents POLLERR) || test revents POLLNVAL

/-- Lines 164-165: the hang-up test on both descriptors. -/
def hangup (s : MainState) : Bool :=
  fatal s.pfd0.revents || fatal s.pfd1.revents

/-- Lines 151-191: one iteration of the body of `for (;;)`. -/
def iteration (env : IterEnv) (s : MainState) : Step :=
  -- pfd[0].fd = realdev; pfd[0].events = POLLIN; pfd[1].fd = fd; pfd[1].events = POLLIN;
  let s1 := { s with pfd0 := { s.pfd0 with fd := s.realdev, events := POLLIN },
                     pfd1 := { s.pfd1 with fd := s.fd, events := POLLIN } }
  -- pollret = poll(pfd, 2, 1000);
  let e0 := Event.poll [(s1.pfd0.fd, s1.pfd0.events), (s1.pfd1.fd, s1.pfd1.events)] 1000
    env.mainPoll.ret [env.mainPoll.revents0, env.mainPoll.revents1]
  let s2 := { s1 with pollret := env.mainPoll.ret,
                      pfd0 := { s1.pfd0 with revents := env.mainPoll.revents0 },
                      pfd1 := { s1.pfd1 with revents := env.mainPoll.revents1 } }
  if s2.pollret < 0 then
    ⟨[e0, Event.diag Diag.pollError], s2, Outcome.exited EXIT_POLL⟩
  else if s2.pollret = 0 then
    -- continue;
    ⟨[e0], s2, Outcome.running⟩
  else if hangup s2 then
    ⟨[e0], s2, Outcome.exited EXIT_POLL⟩
  else
    (Step.mk [e0] s2 Outcome.running).andThen fun s3 =>
    (deviceToBus env s3).andThen fun s4 =>
    busToDevice env s4

/-- The loop `for (;;)` run on the answers of finitely many iterations; it
is still running when they are used up. -/
def relayLoop : List IterEnv → MainState → Step
  | [], s => ⟨[], s, Outcome.running⟩
  | env :: rest, s => (iteration env s).andThen (relayLoop rest)

/-! ## Start-up (lines 33-149) -/

/-- Answers the environment gives during start-up.  `getopt` lists the values
`getopt` returns before -1, each with its `optarg`; `optind` is its value after
that loop.  `LGW_GPS_SUCCESS` is the constant of `loragw_gps.h`; `gpsStatus` is
what `lgw_gps_enable` returns and `gpsFd` what it stores through `&realdev`,
if it stores anything. -/
structure StartEnv where
  getopt : List (Char × CStr)
  argc : Int
  optind : Int
  argv : List CStr
  socketRet : Int
  connectRet : Int
  LGW_GPS_SUCCESS : Int
  gpsStatus : Int
  gpsFd : Option Int
  openRet : Int
  initPoll : PollAns
deriving Repr

/-- Variables at the entry of `main`: the statics are null, `daemonize` and
`gps` are 0, the other locals are not initialised and hold what `junk` holds. -/
def initialState (junk : MainState) : MainState :=
  { junk with tty_bus_path := none, devname := none, init_string := none,
              daemonize := false, gps := false }

/-- Lines 33-51: `usage` prints the help text and calls `exit(2)`. -/
def usage (s : MainState) : Step :=
  ⟨[Event.diag Diag.usageText], s, Outcome.exited EXIT_USAGE⟩

/-- Lines 78-103: the option loop. -/
def getoptLoop : List (Char × CStr) → MainState → Step
  | [], s => ⟨[], s, Outcome.running⟩
  | (c, optarg) :: rest, s =>
    if c = 'd' then getoptLoop rest { s with daemonize := true }
    else if c = 'g' then getoptLoop rest { s with gps := true }
    else if c = 'h' then (usage s).andThen (getoptLoop rest)
    else if c = 's' then getoptLoop rest { s with tty_bus_path := some optarg }
    else if c = 'i' then getoptLoop rest { s with init_string := some optarg }
    else (usage s).andThen (getoptLoop rest)

/-- The default bus path, `"/tmp/ttybus"`. -/
def defaultBusPath : CStr := [47, 116, 109, 112, 47, 116, 116, 121, 98, 117, 115]

/-- Lines 104-116: operand check, `daemon`, `devname` and the default bus
path. -/
def prepare (env : StartEnv) (s : MainState) : Step :=
  (if env.optind ≠ env.argc - 1 then usage s else ⟨[], s, Outcome.running⟩).andThen fun s1 =>
  (Step.mk (if s1.daemonize then [Event.daemon] else []) s1 Outcome.running).andThen fun s2 =>
  let s3 := { s2 with devname := some (env.argv.getD env.optind.toNat []) }
  let s4 := match s3.tty_bus_path with
    | none => { s3 with tty_bus_path := some defaultBusPath }
    | some _ => s3
  ⟨[Event.diag Diag.connecting], s4, Outcome.running⟩

/-- Lines 54-66 and 117: `fd = tty_connect(tty_bus_path)`. -/
def tty_connect (env : StartEnv) (s : MainState) : Step :=
  let path := s.tty_bus_path.getD []
  if env.connectRet < 0 then
    ⟨[Event.connect path env.connectRet, Event.diag Diag.cannotConnect], s,
      Outcome.exited EXIT_CONNECT⟩
  else
    ⟨[Event.connect path env.connectRet], { s with fd := env.socketRet }, Outcome.running⟩

/-- Lines 119-131: device acquisition and the test `realdev < 0`. -/
def acquireDevice (env : StartEnv) (s : MainState) : Step :=
  let dev := s.devname.getD []
  let a : Step :=
    if s.gps then
      -- lgw_gps_enable(devname, "ubx7", 0, &realdev)
      let s1 := match env.gpsFd with
        | some v => { s with realdev := v }
        | none => s
      if env.gpsStatus ≠ env.LGW_GPS_SUCCESS then
        ⟨[Event.gpsEnable dev env.gpsStatus, Event.diag Diag.gpsWarning], s1, Outcome.running⟩
      else
        ⟨[Event.gpsEnable dev env.gpsStatus, Event.diag Diag.gpsInfo], s1, Outcome.running⟩
    else
      -- realdev = open(devname, O_RDWR);
      ⟨[Event.openDev dev env.openRet], { s with realdev := env.openRet }, Outcome.running⟩
  a.andThen fun s2 =>
    if s2.realdev < 0 then
      ⟨[Event.diag Diag.openingDevice], s2, Outcome.exited EXIT_OPEN⟩
    else
      ⟨[], s2, Outcome.running⟩

/-- Lines 133-149: the initialization string. -/
def initInject (env : StartEnv) (s : MainState) : Step :=
  match s.init_string with
  | none => ⟨[], s, Outcome.running⟩
  | some str =>
    -- pfd[0].fd = realdev; pfd[0].events = POLLOUT;
    let s1 := { s with pfd0 := { s.pfd0 with fd := s.realdev, events := POLLOUT } }
    -- pollret = poll(&pfd[0], 1, 50);
    let e := Event.poll [(s1.pfd0.fd, s1.pfd0.events)] 50 env.initPoll.ret [env.initPoll.revents]
    let s2 := { s1 with pollret := env.initPoll.ret,
                        pfd0 := { s1.pfd0 with revents := env.initPoll.revents } }
    if s2.pollret < 0 then
      ⟨[e, Event.diag Diag.pollError], s2, Outcome.exited EXIT_POLL⟩
    else if test s2.pfd0.revents POLLOUT then
      -- write(realdev, init_string, strlen(init_string)); write(realdev, "\n", 1);
      ⟨[e, Event.write s2.realdev str.length str, Event.write s2.realdev 1 [10]],
        s2, Outcome.running⟩
    else
      ⟨[e, Event.diag Diag.deviceBusy], s2, Outcome.running⟩

/-- Lines 78-131: everything before the initialization string. -/
def setup (env : StartEnv) (s0 : MainState) : Step :=
  (getoptLoop env.getopt s0).andThen fun s1 =>
  (prepare env s1).andThen fun s2 =>
  (tty_connect env s2).andThen fun s3 =>
  acquireDevice env s3

/-- Lines 78-149: `main` up to the entry of the relay loop. -/
def startup (env : StartEnv) (s0 : MainState) : Step :=
  (setup env s0).andThen (initInject env)

/-- The function `main`, its relay loop run on the answers `iters`. -/
def main (env : StartEnv) (iters : List IterEnv) (junk : MainState) : Step :=
  (startup env (initialState junk)).andThen (relayLoop iters)

/-! ## Observations on traces -/

/-- Bytes handed to `write` on descriptor `fd`, in order. -/
def bytesWritten (fd : Int) : List Event → List Nat
  | [] => []
  | Event.write fd1 _ data :: rest =>
    if fd1 = fd then data ++ bytesWritten fd rest else bytesWritten fd rest
  | _ :: rest => bytesWritten fd rest

/-- Whether the event is a `read` or a `write`. -/
def Event.isTransfer : Event → Bool
  | Event.read _ _ _ _ => true
  | Event.write _ _ _ => true
  | _ => false

/-- Whether the event is a `write`. -/
def Event.isWrite : Event → Bool
  | Event.write _ _ _ => true
  | _ => false

/-- Whether the event is a device open step, `open` or `lgw_gps_enable`. -/
def Event.isDeviceOpen : Event → Bool
  | Event.openDev _ _ => true
  | Event.gpsEnable _ _ => true
  | _ => false

/-! ## Sample inputs -/

/-- Variables at the entry of the relay loop: the bus on descriptor 3, the
device `/dev/ttyS0` on descriptor 4, a zeroed buffer. -/
def sampleState : MainState :=
  { tty_bus_path := some defaultBusPath,
    devname := some [47, 100, 101, 118, 47, 116, 116, 121, 83, 48],
    init_string := none,
    fd := 3,
    pfd0 := ⟨4, POLLOUT, 0⟩,
    pfd1 := ⟨3, POLLIN, 0⟩,
    pollret := 0,
    r := 0,
    buffer := List.replicate BUFFER_SIZE 0,
    realdev := 4,
    daemonize := false,
    gps := false }

/-- The main poll times out. -/
def envTimeout : IterEnv :=
  ⟨⟨0, 0, 0⟩, ⟨0, []⟩, ⟨0, 0⟩, ⟨0, []⟩, ⟨0, 0⟩⟩

/-- The main poll fails. -/
def envPollFails : IterEnv :=
  ⟨⟨-1, 0, 0⟩, ⟨0, []⟩, ⟨0, 0⟩, ⟨0, []⟩, ⟨0, 0⟩⟩

/-- The device reports `POLLIN | POLLHUP`. -/
def envHangup : IterEnv :=
  ⟨⟨1, POLLIN ||| POLLHUP, 0⟩, ⟨0, []⟩, ⟨0, 0⟩, ⟨0, []⟩, ⟨0, 0⟩⟩

/-- The main poll returns 1 with `revents` `r0` on the device and `r1` on the
bus; every read would deliver one byte and every write-readiness poll would
report `POLLOUT`. -/
def envRevents (r0 r1 : Nat) : IterEnv :=
  ⟨⟨1, r0, r1⟩, ⟨1, [65]⟩, ⟨1, POLLOUT⟩, ⟨1, [66]⟩, ⟨1, POLLOUT⟩⟩

/-- The device delivers three bytes and the bus is write-ready. -/
def envDeviceToBus : IterEnv :=
  ⟨⟨1, POLLIN, 0⟩, ⟨3, [65, 84, 13]⟩, ⟨1, POLLOUT⟩, ⟨0, []⟩, ⟨0, 0⟩⟩

/-- The bus delivers two bytes and the device is write-ready. -/
def envBusToDevice : IterEnv :=
  ⟨⟨1, 0, POLLIN⟩, ⟨0, []⟩, ⟨0, 0⟩, ⟨2, [79, 75]⟩, ⟨1, POLLOUT⟩⟩

/-- The device delivers three bytes and the bus does not become
write-ready. -/
def envStallBus : IterEnv :=
  ⟨⟨1, POLLIN, 0⟩, ⟨3, [65, 84, 13]⟩, ⟨0, 0⟩, ⟨0, []⟩, ⟨0, 0⟩⟩

/-- The bus delivers two bytes and the device does not become
write-ready. -/
def envStallDevice : IterEnv :=
  ⟨⟨1, 0, POLLIN⟩, ⟨0, []⟩, ⟨0, 0⟩, ⟨2, [79, 75]⟩, ⟨0, 0⟩⟩

/-- Both endpoints are readable, one byte each, and both are write-ready. -/
def envBothReadable : IterEnv :=
  ⟨⟨2, POLLIN, POLLIN⟩, ⟨1, [65]⟩, ⟨1, POLLOUT⟩, ⟨1, [66]⟩, ⟨1, POLLOUT⟩⟩

/-- The device is readable, `read` fails with -1 and the bus is
write-ready. -/
def envReadFails : IterEnv :=
  ⟨⟨1, POLLIN, 0⟩, ⟨-1, []⟩, ⟨1, POLLOUT⟩, ⟨0, []⟩, ⟨0, 0⟩⟩

/-- The `count` arguments of the `write` calls of a trace, in order. -/
def writeCounts : List Event → List Nat
  | [] => []
  | Event.write _ count _ :: rest => count :: writeCounts rest
  | _ :: rest => writeCounts rest

/-- The descriptors of the `read` calls of a trace, in order. -/
def readFds : List Event → List Int
  | [] => []
  | Event.read fd _ _ _ :: rest => fd :: readFds rest
  | _ :: rest => readFds rest

/-- A well-formed start: `tty_attach -i ATZ /dev/ttyS0`, the broker listens,
the device opens on descriptor 4 and is write-ready. -/
def sampleStart : StartEnv :=
  { getopt := [('i', [65, 84, 90])],
    argc := 4,
    optind := 3,
    argv := [[116, 116, 121, 95, 97, 116, 116, 97, 99, 104], [45, 105], [65, 84, 90],
      [47, 100, 101, 118, 47, 116, 116, 121, 83, 48]],
    socketRet := 3,
    connectRet := 0,
    LGW_GPS_SUCCESS := 0,
    gpsStatus := 0,
    gpsFd := none,
    openRet := 4,
    initPoll := ⟨1, POLLOUT⟩ }

/-- As `sampleStart`, with the device not write-ready at the initial poll. -/
def sampleStartBusy : StartEnv :=
  { sampleStart with initPoll := ⟨0, 0⟩ }

/-- As `sampleStart`, without any option: `tty_attach /dev/ttyS0`. -/
def sampleStartPlain : StartEnv :=
  { sampleStart with
    getopt := [],
    argc := 2,
    optind := 1,
    argv := [[116, 116, 121, 95, 97, 116, 116, 97, 99, 104],
      [47, 100, 101, 118, 47, 116, 116, 121, 83, 48]] }

/-- As `sampleStart`, with the device operand missing. -/
def sampleStartNoOperand : StartEnv :=
  { sampleStart with argc := 3 }

/-- As `sampleStart`, with no broker listening: `connect` returns -1. -/
def sampleStartNoBroker : StartEnv :=
  { sampleStart with connectRet := -1 }

/-- As `sampleStart`, with `open` returning -1. -/
def sampleStartNoDevice : StartEnv :=
  { sampleStart with openRet := -1 }

/-- GPS mode, `tty_attach -g /dev/ttyS0`: `lgw_gps_enable` returns -1 and
stores nothing through `&realdev`. -/
def sampleStartGpsFails : StartEnv :=
  { sampleStart with
    getopt := [('g', [])],
    argc := 3,
    optind := 2,
    argv := [[116, 116, 121, 95, 97, 116, 116, 97, 99, 104], [45, 103],
      [47, 100, 101, 118, 47, 116, 116, 121, 83, 48]],
    gpsStatus := -1,
    gpsFd := none }

/-- Contents of the uninitialised locals at the entry of `main`, `realdev`
holding 0. -/
def sampleJunk : MainState :=
  { sampleState with realdev := 0 }

/-- Exit status of a run, if it has exited. -/
def Outcome.status : Outcome → Option Nat
  | Outcome.running => none
  | Outcome.exited code => some (exitStatus code)

/-! ## Helper lemmas -/

theorem andThen_running (a : Step) (f : MainState → Step) (h : a.outcome = Outcome.running) :
    a.andThen f = ⟨a.trace ++ (f a.state).trace, (f a.state).state, (f a.state).outcome⟩ := by
  simp [Step.andThen, h]

/-- A requested-events mask without `POLLIN` never yields `POLLIN`. -/
theorem pollout_answer_has_no_pollin (a : PollAns) (h : pollConforms POLLOUT a)
    (hret : 0 ≤ a.ret) : test a.revents POLLIN = false := by
  rcases h with h | ⟨_, h0⟩ | ⟨_, _, hm⟩
  · omega
  · simp [test, h0]
  · have h1 : a.revents &&& POLLIN = 0 := by
      rw [← hm, Nat.land_assoc]
      simp [POLLIN, POLLOUT, POLLERR, POLLHUP, POLLNVAL]
    simp [test, h1]

/-- The first `n` bytes of the buffer after a read of `n` bytes are the
bytes read. -/
theorem take_readInto (buffer data : List Nat) :
    (readInto buffer data).take data.length = data := by
  simp [readInto]

theorem toSizeT_of_le (n : Nat) (h : n ≤ BUFFER_SIZE) : toSizeT (n : Int) = n := by
  unfold toSizeT BUFFER_SIZE at *
  omega

/-! ## The relay loop: theorems -/

/-- C4: when the main poll returns 0 the iteration consists of that poll
alone (no read, no write), does not exit, leaves both descriptors and the
buffer as they were, and the loop goes on with the next iteration. -/
theorem timeout_tick_is_noop (env : IterEnv) (s : MainState)
    (h : env.mainPoll.ret = 0) :
    (iteration env s).outcome = Outcome.running ∧
    (iteration env s).trace =
      [Event.poll [(s.realdev, POLLIN), (s.fd, POLLIN)] 1000 0
        [env.mainPoll.revents0, env.mainPoll.revents1]] ∧
    (∀ e ∈ (iteration env s).trace, e.isTransfer = false) ∧
    (iteration env s).state.realdev = s.realdev ∧
    (iteration env s).state.fd = s.fd ∧
    (iteration env s).state.buffer = s.buffer ∧
    ∀ rest, (relayLoop (env :: rest) s).trace =
      (iteration env s).trace ++ (relayLoop rest (iteration env s).state).trace := by
  have hi : iteration env s =
      ⟨[Event.poll [(s.realdev, POLLIN), (s.fd, POLLIN)] 1000 0
          [env.mainPoll.revents0, env.mainPoll.revents1]],
        { s with pfd0 := ⟨s.realdev, POLLIN, env.mainPoll.revents0⟩,
                 pfd1 := ⟨s.fd, POLLIN, env.mainPoll.revents1⟩,
                 pollret := 0 }, Outcome.running⟩ := by
    simp [iteration, h]
  refine ⟨by simp [hi], by simp [hi], by simp [hi, Event.isTransfer], by simp [hi],
    by simp [hi], by simp [hi], ?_⟩
  intro rest
  simp [relayLoop, andThen_running, hi]
/-- C3: when the main poll returns a positive value and the `revents` of the
device or of the bus has the bit `POLLHUP`, `POLLERR` or `POLLNVAL` set, the
iteration exits with status 1 and consists of the main poll alone, without any
read or write, whatever the other bits of `revents` (`POLLIN` included) are. -/
theorem hangup_is_fatal (env : IterEnv) (s : MainState)
    (hret : 0 < env.mainPoll.ret)
    (hbits :
      (env.mainPoll.revents0 &&& POLLHUP ≠ 0 ∨ env.mainPoll.revents0 &&& POLLERR ≠ 0 ∨
        env.mainPoll.revents0 &&& POLLNVAL ≠ 0) ∨
      (env.mainPoll.revents1 &&& POLLHUP ≠ 0 ∨ env.mainPoll.revents1 &&& POLLERR ≠ 0 ∨
        env.mainPoll.revents1 &&& POLLNVAL ≠ 0)) :
    (iteration env s).outcome = Outcome.exited 1 ∧
    (iteration env s).outcome.status = some 1 ∧
    (iteration env s).trace =
      [Event.poll [(s.realdev, POLLIN), (s.fd, POLLIN)] 1000 env.mainPoll.ret
        [env.mainPoll.revents0, env.mainPoll.revents1]] ∧
    (∀ e ∈ (iteration env s).trace, e.isTransfer = false) := by
  have h1 : ¬ env.mainPoll.ret < 0 := by omega
  have h2 : ¬ env.mainPoll.ret = 0 := by omega
  have h3 : (fatal env.mainPoll.revents0 || fatal env.mainPoll.revents1) = true := by
    rcases hbits with (h | h | h) | (h | h | h) <;> simp [fatal, test, h]
  simp [iteration, hangup, h1, h2, h3, EXIT_POLL, Event.isTransfer, Outcome.status, exitStatus]

/-- C1: in an iteration whose main poll returns a positive value without
`POLLHUP`, `POLLERR`, `POLLNVAL`, where exactly one endpoint reports `POLLIN`,
its `read` returns `n` bytes with `1 ≤ n ≤ 4096` and the write-readiness poll
on the other endpoint reports `POLLOUT`, the iteration issues exactly one
`write`, to the other endpoint, of exactly those `n` bytes in order: device to
bus (first part, the poll on the bus obeying the contract of `poll`) and bus
to device (second part). -/
theorem relay_quantum_fidelity (env : IterEnv) (s : MainState) (n : Nat) :
    (0 < env.mainPoll.ret →
      fatal env.mainPoll.revents0 = false → fatal env.mainPoll.revents1 = false →
      test env.mainPoll.revents0 POLLIN = true → test env.mainPoll.revents1 POLLIN = false →
      env.devRead.ret = n → 1 ≤ n → n ≤ BUFFER_SIZE → env.devRead.data.length = n →
      pollConforms POLLOUT env.busPoll → 0 ≤ env.busPoll.ret →
      test env.busPoll.revents POLLOUT = true →
      (iteration env s).trace =
        [Event.poll [(s.realdev, POLLIN), (s.fd, POLLIN)] 1000 env.mainPoll.ret
          [env.mainPoll.revents0, env.mainPoll.revents1],
         Event.read s.realdev BUFFER_SIZE n env.devRead.data,
         Event.poll [(s.fd, POLLOUT)] 50 env.busPoll.ret [env.busPoll.revents],
         Event.write s.fd n env.devRead.data] ∧
      (iteration env s).trace.filter Event.isWrite = [Event.write s.fd n env.devRead.data] ∧
      (iteration env s).outcome = Outcome.running) ∧
    (0 < env.mainPoll.ret →
      fatal env.mainPoll.revents0 = false → fatal env.mainPoll.revents1 = false →
      test env.mainPoll.revents1 POLLIN = true → test env.mainPoll.revents0 POLLIN = false →
      env.busRead.ret = n → 1 ≤ n → n ≤ BUFFER_SIZE → env.busRead.data.length = n →
      0 ≤ env.devPoll.ret →
      test env.devPoll.revents POLLOUT = true →
      (iteration env s).trace =
        [Event.poll [(s.realdev, POLLIN), (s.fd, POLLIN)] 1000 env.mainPoll.ret
          [env.mainPoll.revents0, env.mainPoll.revents1],
         Event.read s.fd BUFFER_SIZE n env.busRead.data,
         Event.poll [(s.realdev, POLLOUT)] 50 env.devPoll.ret [env.devPoll.revents],
         Event.write s.realdev n env.busRead.data] ∧
      (iteration env s).trace.filter Event.isWrite = [Event.write s.realdev n env.busRead.data] ∧
      (iteration env s).outcome = Outcome.running) := by
  constructor
  · intro hret hf0 hf1 hin0 hin1 hr _ hn hlen hconf hpret hout
    have h1 : ¬ env.mainPoll.ret < 0 := by omega
    have h2 : ¬ env.mainPoll.ret = 0 := by omega
    have h4 : ¬ env.busPoll.ret < 0 := by omega
    have h5 := pollout_answer_has_no_pollin env.busPoll hconf hpret
    have h6 : (readInto s.buffer env.devRead.data).take n = env.devRead.data := by
      rw [← hlen]; exact take_readInto _ _
    have h7 := toSizeT_of_le n hn
    simp [iteration, hangup, deviceToBus, busToDevice, Step.andThen, h1, h2, hf0, hf1, hin0,
      h4, h5, hout, hr, h6, h7, Event.isWrite]
  · intro hret hf0 hf1 hin1 hin0 hr _ hn hlen hpret hout
    have h1 : ¬ env.mainPoll.ret < 0 := by omega
    have h2 : ¬ env.mainPoll.ret = 0 := by omega
    have h4 : ¬ env.devPoll.ret < 0 := by omega
    have h6 : (readInto s.buffer env.busRead.data).take n = env.busRead.data := by
      rw [← hlen]; exact take_readInto _ _
    have h7 := toSizeT_of_le n hn
    simp [iteration, hangup, deviceToBus, busToDevice, Step.andThen, h1, h2, hf0, hf1, hin0,
      hin1, h4, hout, hr, h6, h7, Event.isWrite]

/-- C2: when an iteration performs a write-readiness poll on a destination
`dst` (which it does right after reading from the other endpoint) and that
poll returns 0 without `POLLOUT`, the iteration issues no `write`, does not
exit, and the loop goes on with the next iteration; `dst` is the bus or the
device.  The poll on the bus is assumed to obey the contract of `poll`. -/
theorem backpressure_drops_silently (env : IterEnv) (s : MainState)
    (hconf : pollConforms POLLOUT env.busPoll) (dst : Int) (rev : Nat)
    (hpoll : Event.poll [(dst, POLLOUT)] 50 0 [rev] ∈ (iteration env s).trace)
    (hno : test rev POLLOUT = false) :
    (∀ e ∈ (iteration env s).trace, e.isWrite = false) ∧
    (iteration env s).outcome = Outcome.running ∧
    ∀ rest, (relayLoop (env :: rest) s).trace =
      (iteration env s).trace ++ (relayLoop rest (iteration env s).state).trace := by
  have key : (∀ e ∈ (iteration env s).trace, e.isWrite = false) ∧
      (iteration env s).outcome = Outcome.running := by
    by_cases h1 : env.mainPoll.ret < 0
    · simp [iteration, h1] at hpoll
    by_cases h2 : env.mainPoll.ret = 0
    · simp [iteration, h2] at hpoll
    by_cases h3 : (fatal env.mainPoll.revents0 || fatal env.mainPoll.revents1) = true
    · simp [iteration, hangup, h1, h2, h3] at hpoll
    by_cases hin0 : test env.mainPoll.revents0 POLLIN = true
    · by_cases h4 : env.busPoll.ret < 0
      · simp [iteration, hangup, deviceToBus, busToDevice, Step.andThen, h1, h2, h3, hin0, h4]
          at hpoll
        omega
      · have h5 := pollout_answer_has_no_pollin env.busPoll hconf (by omega)
        by_cases hout : test env.busPoll.revents POLLOUT = true
        · simp [iteration, hangup, deviceToBus, busToDevice, Step.andThen, h1, h2, h3, hin0, h4,
            h5, hout] at hpoll
          obtain ⟨_, _, hrev⟩ := hpoll
          subst hrev
          simp [hno] at hout
        · simp [iteration, hangup, deviceToBus, busToDevice, Step.andThen, h1, h2, h3, hin0, h4,
            h5, hout, Event.isWrite]
    · by_cases hin1 : test env.mainPoll.revents1 POLLIN = true
      · by_cases h4 : env.devPoll.ret < 0
        · simp [iteration, hangup, deviceToBus, busToDevice, Step.andThen, h1, h2, h3, hin0,
            hin1, h4] at hpoll
          omega
        · by_cases hout : test env.devPoll.revents POLLOUT = true
          · simp [iteration, hangup, deviceToBus, busToDevice, Step.andThen, h1, h2, h3, hin0,
              hin1, h4, hout] at hpoll
            obtain ⟨_, _, hrev⟩ := hpoll
            subst hrev
            simp [hno] at hout
          · simp [iteration, hangup, deviceToBus, busToDevice, Step.andThen, h1, h2, h3, hin0,
              hin1, h4, hout, Event.isWrite]
      · simp [iteration, hangup, deviceToBus, busToDevice, Step.andThen, h1, h2, h3, hin0,
          hin1] at hpoll
  refine ⟨key.1, key.2, ?_⟩
  intro rest
  simp [relayLoop, andThen_running, key.2]

/-- When the device is readable and the write-readiness poll on the bus obeys
the contract of `poll`, the iteration never reads from the bus, whatever the
main poll reported for it: the only `read` is the one on the device. -/
theorem device_readable_skips_bus (env : IterEnv) (s : MainState)
    (hret : 0 < env.mainPoll.ret)
    (hf0 : fatal env.mainPoll.revents0 = false) (hf1 : fatal env.mainPoll.revents1 = false)
    (hin0 : test env.mainPoll.revents0 POLLIN = true)
    (hconf : pollConforms POLLOUT env.busPoll) :
    readFds (iteration env s).trace = [s.realdev] := by
  have h1 : ¬ env.mainPoll.ret < 0 := by omega
  have h2 : ¬ env.mainPoll.ret = 0 := by omega
  by_cases h4 : env.busPoll.ret < 0
  · simp [iteration, hangup, deviceToBus, busToDevice, Step.andThen, h1, h2, hf0, hf1, hin0, h4,
      readFds]
  · have h5 := pollout_answer_has_no_pollin env.busPoll hconf (by omega)
    by_cases hout : test env.busPoll.revents POLLOUT = true <;>
      simp [iteration, hangup, deviceToBus, busToDevice, Step.andThen, h1, h2, hf0, hf1, hin0,
        h4, h5, hout, readFds]

/-- A byte count that `read` returns is passed to `write` unchanged and stays
within the buffer; the failure value -1 becomes the largest `size_t`. -/
theorem toSizeT_of_read (a : ReadAns) (h : readConforms a) :
    (0 ≤ a.ret → toSizeT a.ret = a.data.length ∧ toSizeT a.ret ≤ BUFFER_SIZE) ∧
    (a.ret = -1 → toSizeT a.ret = 2 ^ 64 - 1) := by
  unfold readConforms BUFFER_SIZE at h
  unfold toSizeT BUFFER_SIZE
  constructor
  · intro h0
    rcases h with ⟨h1, _⟩ | ⟨_, h2, h3⟩
    · omega
    · omega
  · intro h1
    rw [h1]
    decide

/-! ## Start-up: lemmas -/

theorem mem_andThen_trace (a : Step) (f : MainState → Step) (e : Event)
    (h : e ∈ (a.andThen f).trace) : e ∈ a.trace ∨ e ∈ (f a.state).trace := by
  unfold Step.andThen at h
  cases ho : a.outcome with
  | running => simp [ho] at h; exact h
  | exited c => simp [ho] at h; exact Or.inl h

theorem getoptLoop_trace (opts : List (Char × CStr)) (s : MainState) :
    ∀ e ∈ (getoptLoop opts s).trace, e = Event.diag Diag.usageText := by
  induction opts generalizing s with
  | nil => simp [getoptLoop]
  | cons o rest ih =>
    obtain ⟨c, optarg⟩ := o
    intro e he
    unfold getoptLoop at he
    split_ifs at he
    · exact ih _ e he
    · exact ih _ e he
    · simpa [usage, Step.andThen] using he
    · exact ih _ e he
    · exact ih _ e he
    · simpa [usage, Step.andThen] using he

theorem prepare_trace (env : StartEnv) (s : MainState) :
    ∀ e ∈ (prepare env s).trace, e.isWrite = false ∧ e.isDeviceOpen = false := by
  intro e he
  by_cases h1 : env.optind = env.argc - 1 <;> by_cases h2 : s.daemonize = true <;>
    simp [prepare, usage, Step.andThen, h1, h2] at he <;>
    rcases he with rfl | rfl <;> simp [Event.isWrite, Event.isDeviceOpen]

theorem tty_connect_trace (env : StartEnv) (s : MainState) :
    ∀ e ∈ (tty_connect env s).trace, e.isWrite = false ∧ e.isDeviceOpen = false := by
  intro e he
  by_cases h1 : env.connectRet < 0 <;> simp [tty_connect, h1] at he <;>
    rcases he with rfl | rfl <;> simp [Event.isWrite, Event.isDeviceOpen]

theorem acquireDevice_trace (env : StartEnv) (s : MainState) :
    ∀ e ∈ (acquireDevice env s).trace, e.isWrite = false := by
  intro e he
  unfold acquireDevice at he
  rcases mem_andThen_trace _ _ e he with h | h
  · by_cases h1 : s.gps = true <;> by_cases h2 : env.gpsStatus = env.LGW_GPS_SUCCESS <;>
      simp [h1, h2] at h <;> rcases h with rfl | rfl <;> simp [Event.isWrite]
  · have h3 : e = Event.diag Diag.openingDevice := by
      split_ifs at h <;> simp_all
    subst h3
    rfl

/-- Nothing is written before the initialization string is handled. -/
theorem setup_trace (env : StartEnv) (s0 : MainState) :
    ∀ e ∈ (setup env s0).trace, e.isWrite = false := by
  intro e he
  unfold setup at he
  rcases mem_andThen_trace _ _ e he with h | h
  · rw [getoptLoop_trace _ _ e h]; rfl
  · rcases mem_andThen_trace _ _ e h with h | h
    · exact (prepare_trace _ _ e h).1
    · rcases mem_andThen_trace _ _ e h with h | h
      · exact (tty_connect_trace _ _ e h).1
      · exact acquireDevice_trace _ _ e h

theorem bytesWritten_append (fd : Int) (t u : List Event) :
    bytesWritten fd (t ++ u) = bytesWritten fd t ++ bytesWritten fd u := by
  induction t with
  | nil => simp [bytesWritten]
  | cons e rest ih =>
    cases e <;> simp [bytesWritten, ih]
    split_ifs <;> simp

theorem bytesWritten_of_no_write (fd : Int) (t : List Event)
    (h : ∀ e ∈ t, e.isWrite = false) : bytesWritten fd t = [] := by
  induction t with
  | nil => simp [bytesWritten]
  | cons e rest ih =>
    have hr : ∀ e ∈ rest, e.isWrite = false := fun x hx => h x (List.mem_cons_of_mem _ hx)
    have he := h e (List.mem_cons_self _ _)
    cases e <;> simp_all [bytesWritten, Event.isWrite]

/-- Device acquisition exits with 3 exactly when `realdev` is negative at
line 128; in plain mode that is when `open` returned a negative value. -/
theorem acquireDevice_exits_iff (env : StartEnv) (s : MainState) :
    ((acquireDevice env s).outcome = Outcome.exited 3 ↔ (acquireDevice env s).state.realdev < 0) ∧
    (s.gps = false → (acquireDevice env s).state.realdev = env.openRet) := by
  unfold acquireDevice
  constructor
  · split_ifs with hg hs <;> cases hfd : env.gpsFd <;>
      simp [Step.andThen, EXIT_OPEN] <;> split_ifs <;> simp_all
  · intro hg
    by_cases h : env.openRet < 0 <;> simp [hg, Step.andThen, h]

theorem prepare_running (env : StartEnv) (s : MainState) (h : env.optind = env.argc - 1) :
    (prepare env s).outcome = Outcome.running := by
  simp [prepare, Step.andThen, h]

theorem filter_isWrite_of_no_write (t : List Event) (h : ∀ e ∈ t, e.isWrite = false) :
    t.filter Event.isWrite = [] := by
  rw [List.filter_eq_nil_iff]
  intro e he
  simp [h e he]

/-! ## Start-up: theorems -/

/-- C5: when an initialization string `str` is configured and the initial
poll on the device does not fail, the bytes written to the device before the
relay loop are `str` followed by one `"\n"` if the poll reported `POLLOUT`, and
nothing is written (the busy warning is emitted) otherwise; in both cases the
process does not exit and `main` goes on with the relay loop.  Without an
initialization string nothing is written before the loop. -/
theorem init_injector_postcondition (env : StartEnv) (junk : MainState) (iters : List IterEnv) :
    (∀ str : CStr,
      (setup env (initialState junk)).outcome = Outcome.running →
      (setup env (initialState junk)).state.init_string = some str →
      0 ≤ env.initPoll.ret →
      bytesWritten (setup env (initialState junk)).state.realdev
          (startup env (initialState junk)).trace
        = (if test env.initPoll.revents POLLOUT then str ++ [10] else []) ∧
      (test env.initPoll.revents POLLOUT = true →
        (startup env (initialState junk)).trace.filter Event.isWrite =
          [Event.write (setup env (initialState junk)).state.realdev str.length str,
           Event.write (setup env (initialState junk)).state.realdev 1 [10]]) ∧
      (test env.initPoll.revents POLLOUT = false →
        (startup env (initialState junk)).trace.filter Event.isWrite = [] ∧
        Event.diag Diag.deviceBusy ∈ (startup env (initialState junk)).trace) ∧
      (startup env (initialState junk)).outcome = Outcome.running ∧
      (main env iters junk).trace = (startup env (initialState junk)).trace ++
        (relayLoop iters (startup env (initialState junk)).state).trace) ∧
    ((setup env (initialState junk)).outcome = Outcome.running →
      (setup env (initialState junk)).state.init_string = none →
      (startup env (initialState junk)).trace.filter Event.isWrite = [] ∧
      (startup env (initialState junk)).outcome = Outcome.running ∧
      (main env iters junk).trace = (startup env (initialState junk)).trace ++
        (relayLoop iters (startup env (initialState junk)).state).trace) := by
  have hw := setup_trace env (initialState junk)
  have hf := filter_isWrite_of_no_write _ hw
  have hb := fun fd => bytesWritten_of_no_write fd _ hw
  constructor
  · intro str hrun hstr hret
    have h1 : ¬ env.initPoll.ret < 0 := by omega
    have hst : startup env (initialState junk) =
        ⟨(setup env (initialState junk)).trace ++
            (initInject env (setup env (initialState junk)).state).trace,
          (initInject env (setup env (initialState junk)).state).state,
          (initInject env (setup env (initialState junk)).state).outcome⟩ := by
      unfold startup
      rw [andThen_running _ _ hrun]
    by_cases hout : test env.initPoll.revents POLLOUT = true
    · have hi : (initInject env (setup env (initialState junk)).state).outcome
          = Outcome.running := by
        simp [initInject, hstr, h1, hout]
      have hrs : (startup env (initialState junk)).outcome = Outcome.running := by
        rw [hst]; exact hi
      refine ⟨?_, ?_, ?_, hrs, ?_⟩
      · rw [hst]
        simp [bytesWritten_append, hb, initInject, hstr, h1, hout, bytesWritten]
      · intro _
        rw [hst]
        simp [hf, initInject, hstr, h1, hout, Event.isWrite]
      · intro hno
        rw [hno] at hout
        exact absurd hout (by decide)
      · unfold main
        rw [andThen_running _ _ hrs]
    · have hi : (initInject env (setup env (initialState junk)).state).outcome
          = Outcome.running := by
        simp [initInject, hstr, h1, hout]
      have hrs : (startup env (initialState junk)).outcome = Outcome.running := by
        rw [hst]; exact hi
      refine ⟨?_, ?_, ?_, hrs, ?_⟩
      · rw [hst]
        simp [bytesWritten_append, hb, initInject, hstr, h1, hout, bytesWritten]
      · intro h
        exact absurd h hout
      · intro _
        rw [hst]
        simp [hf, initInject, hstr, h1, hout, Event.isWrite]
      · unfold main
        rw [andThen_running _ _ hrs]
  · intro hrun hnone
    have hst : startup env (initialState junk) =
        ⟨(setup env (initialState junk)).trace, (setup env (initialState junk)).state,
          Outcome.running⟩ := by
      unfold startup
      rw [andThen_running _ _ hrun]
      simp [initInject, hnone]
    have hrs : (startup env (initialState junk)).outcome = Outcome.running := by
      rw [hst]
    refine ⟨?_, hrs, ?_⟩
    · rw [hst]
      exact hf
    · unfold main
      rw [andThen_running _ _ hrs]

/-- C6: in a run that reaches `tty_connect` (the options and the operand
are accepted) and in which `connect` fails, the process exits with the
argument -1 of `exit` in `tty_connect` (status 255), the failed `connect` is in
the trace, and the trace holds neither `open` nor `lgw_gps_enable`. -/
theorem connect_failure_precedes_device (env : StartEnv) (junk : MainState)
    (iters : List IterEnv)
    (hopts : (getoptLoop env.getopt (initialState junk)).outcome = Outcome.running)
    (hoperand : env.optind = env.argc - 1)
    (hconn : env.connectRet < 0) :
    (main env iters junk).outcome = Outcome.exited (-1) ∧
    (main env iters junk).outcome.status = some 255 ∧
    (∃ path, Event.connect path env.connectRet ∈ (main env iters junk).trace) ∧
    (∀ e ∈ (main env iters junk).trace, e.isDeviceOpen = false) := by
  have hp := prepare_running env (getoptLoop env.getopt (initialState junk)).state hoperand
  have hm : main env iters junk =
      ⟨(getoptLoop env.getopt (initialState junk)).trace ++
        ((prepare env (getoptLoop env.getopt (initialState junk)).state).trace ++
          [Event.connect
            ((prepare env (getoptLoop env.getopt (initialState junk)).state).state.tty_bus_path.getD
              [])
            env.connectRet, Event.diag Diag.cannotConnect]),
        (prepare env (getoptLoop env.getopt (initialState junk)).state).state,
        Outcome.exited (-1)⟩ := by
    unfold main startup setup
    rw [andThen_running _ _ hopts, andThen_running _ _ hp]
    simp [tty_connect, hconn, Step.andThen, EXIT_CONNECT]
  rw [hm]
  refine ⟨rfl, by simp [Outcome.status, exitStatus],
    ⟨(prepare env (getoptLoop env.getopt (initialState junk)).state).state.tty_bus_path.getD [],
      by simp⟩, ?_⟩
  intro e he
  simp only [List.mem_append, List.mem_cons, List.mem_singleton, List.not_mem_nil, or_false]
    at he
  rcases he with h | h | h | h
  · rw [getoptLoop_trace _ _ e h]; rfl
  · exact (prepare_trace _ _ e h).2
  · rw [h]; rfl
  · rw [h]; rfl

/-! ## Sample runs -/

theorem timeout_tick_is_noop_witness :
    envTimeout.mainPoll.ret = 0 ∧
    (iteration envTimeout sampleState).outcome = Outcome.running ∧
    (iteration envTimeout sampleState).trace =
      [Event.poll [(4, POLLIN), (3, POLLIN)] 1000 0 [0, 0]] :=
  ⟨rfl, (timeout_tick_is_noop envTimeout sampleState rfl).1,
    (timeout_tick_is_noop envTimeout sampleState rfl).2.1⟩

theorem hangup_is_fatal_witness :
    ((iteration (envRevents (POLLIN ||| POLLHUP) POLLIN) sampleState).outcome
        = Outcome.exited 1 ∧
      (iteration (envRevents (POLLIN ||| POLLHUP) POLLIN) sampleState).trace =
        [Event.poll [(4, POLLIN), (3, POLLIN)] 1000 1 [POLLIN ||| POLLHUP, POLLIN]]) ∧
    ((iteration (envRevents (POLLIN ||| POLLERR) 0) sampleState).outcome = Outcome.exited 1 ∧
      (iteration (envRevents (POLLIN ||| POLLERR) 0) sampleState).trace =
        [Event.poll [(4, POLLIN), (3, POLLIN)] 1000 1 [POLLIN ||| POLLERR, 0]]) ∧
    ((iteration (envRevents POLLNVAL POLLIN) sampleState).outcome = Outcome.exited 1 ∧
      (iteration (envRevents POLLNVAL POLLIN) sampleState).trace =
        [Event.poll [(4, POLLIN), (3, POLLIN)] 1000 1 [POLLNVAL, POLLIN]]) ∧
    ((iteration (envRevents POLLIN (POLLIN ||| POLLHUP)) sampleState).outcome
        = Outcome.exited 1 ∧
      (iteration (envRevents POLLIN (POLLIN ||| POLLHUP)) sampleState).trace =
        [Event.poll [(4, POLLIN), (3, POLLIN)] 1000 1 [POLLIN, POLLIN ||| POLLHUP]]) ∧
    ((iteration (envRevents POLLIN POLLERR) sampleState).outcome = Outcome.exited 1 ∧
      (iteration (envRevents POLLIN POLLERR) sampleState).trace =
        [Event.poll [(4, POLLIN), (3, POLLIN)] 1000 1 [POLLIN, POLLERR]]) ∧
    ((iteration (envRevents 0 (POLLIN ||| POLLNVAL)) sampleState).outcome = Outcome.exited 1 ∧
      (iteration (envRevents 0 (POLLIN ||| POLLNVAL)) sampleState).trace =
        [Event.poll [(4, POLLIN), (3, POLLIN)] 1000 1 [0, POLLIN ||| POLLNVAL]]) :=
  ⟨⟨(hangup_is_fatal (envRevents (POLLIN ||| POLLHUP) POLLIN) sampleState (by decide)
        (Or.inl (Or.inl (by decide)))).1,
     (hangup_is_fatal (envRevents (POLLIN ||| POLLHUP) POLLIN) sampleState (by decide)
        (Or.inl (Or.inl (by decide)))).2.2.1⟩,
   ⟨(hangup_is_fatal (envRevents (POLLIN ||| POLLERR) 0) sampleState (by decide)
        (Or.inl (Or.inr (Or.inl (by decide))))).1,
     (hangup_is_fatal (envRevents (POLLIN ||| POLLERR) 0) sampleState (by decide)
        (Or.inl (Or.inr (Or.inl (by decide))))).2.2.1⟩,
   ⟨(hangup_is_fatal (envRevents POLLNVAL POLLIN) sampleState (by decide)
        (Or.inl (Or.inr (Or.inr (by decide))))).1,
     (hangup_is_fatal (envRevents POLLNVAL POLLIN) sampleState (by decide)
        (Or.inl (Or.inr (Or.inr (by decide))))).2.2.1⟩,
   ⟨(hangup_is_fatal (envRevents POLLIN (POLLIN ||| POLLHUP)) sampleState (by decide)
        (Or.inr (Or.inl (by decide)))).1,
     (hangup_is_fatal (envRevents POLLIN (POLLIN ||| POLLHUP)) sampleState (by decide)
        (Or.inr (Or.inl (by decide)))).2.2.1⟩,
   ⟨(hangup_is_fatal (envRevents POLLIN POLLERR) sampleState (by decide)
        (Or.inr (Or.inr (Or.inl (by decide))))).1,
     (hangup_is_fatal (envRevents POLLIN POLLERR) sampleState (by decide)
        (Or.inr (Or.inr (Or.inl (by decide))))).2.2.1⟩,
   ⟨(hangup_is_fatal (envRevents 0 (POLLIN ||| POLLNVAL)) sampleState (by decide)
        (Or.inr (Or.inr (Or.inr (by decide))))).1,
     (hangup_is_fatal (envRevents 0 (POLLIN ||| POLLNVAL)) sampleState (by decide)
        (Or.inr (Or.inr (Or.inr (by decide))))).2.2.1⟩⟩

theorem relay_quantum_fidelity_witness :
    ((iteration envDeviceToBus sampleState).trace.filter Event.isWrite =
        [Event.write 3 3 [65, 84, 13]] ∧
      (iteration envDeviceToBus sampleState).outcome = Outcome.running) ∧
    ((iteration envBusToDevice sampleState).trace.filter Event.isWrite =
        [Event.write 4 2 [79, 75]] ∧
      (iteration envBusToDevice sampleState).outcome = Outcome.running) :=
  ⟨((relay_quantum_fidelity envDeviceToBus sampleState 3).1 (by decide) (by decide) (by decide)
      (by decide) (by decide) (by decide) (by decide) (by decide) (by decide) (by decide)
      (by decide) (by decide)).2,
   ((relay_quantum_fidelity envBusToDevice sampleState 2).2 (by decide) (by decide) (by decide)
      (by decide) (by decide) (by decide) (by decide) (by decide) (by decide) (by decide)
      (by decide)).2⟩

theorem backpressure_drops_silently_witness :
    (Event.poll [(3, POLLOUT)] 50 0 [0] ∈ (iteration envStallBus sampleState).trace ∧
      (∀ e ∈ (iteration envStallBus sampleState).trace, e.isWrite = false) ∧
      (iteration envStallBus sampleState).outcome = Outcome.running) ∧
    (Event.poll [(4, POLLOUT)] 50 0 [0] ∈ (iteration envStallDevice sampleState).trace ∧
      (∀ e ∈ (iteration envStallDevice sampleState).trace, e.isWrite = false) ∧
      (iteration envStallDevice sampleState).outcome = Outcome.running) :=
  ⟨⟨by decide,
     (backpressure_drops_silently envStallBus sampleState (by decide) 3 0 (by decide)
       (by decide)).1,
     (backpressure_drops_silently envStallBus sampleState (by decide) 3 0 (by decide)
       (by decide)).2.1⟩,
   ⟨by decide,
     (backpressure_drops_silently envStallDevice sampleState (by decide) 4 0 (by decide)
       (by decide)).1,
     (backpressure_drops_silently envStallDevice sampleState (by decide) 4 0 (by decide)
       (by decide)).2.1⟩⟩

theorem init_injector_postcondition_witness :
    (bytesWritten 4 (startup sampleStart (initialState sampleJunk)).trace = [65, 84, 90, 10] ∧
      (startup sampleStart (initialState sampleJunk)).outcome = Outcome.running) ∧
    (bytesWritten 4 (startup sampleStartBusy (initialState sampleJunk)).trace = [] ∧
      (startup sampleStartBusy (initialState sampleJunk)).outcome = Outcome.running) :=
  ⟨⟨((init_injector_postcondition sampleStart sampleJunk []).1 [65, 84, 90] (by decide)
        (by decide) (by decide)).1,
     ((init_injector_postcondition sampleStart sampleJunk []).1 [65, 84, 90] (by decide)
        (by decide) (by decide)).2.2.2.1⟩,
   ⟨((init_injector_postcondition sampleStartBusy sampleJunk []).1 [65, 84, 90] (by decide)
        (by decide) (by decide)).1,
     ((init_injector_postcondition sampleStartBusy sampleJunk []).1 [65, 84, 90] (by decide)
        (by decide) (by decide)).2.2.2.1⟩⟩

theorem connect_failure_precedes_device_witness :
    sampleStartNoBroker.connectRet < 0 ∧
    (main sampleStartNoBroker [envTimeout] sampleJunk).outcome = Outcome.exited (-1) ∧
    (∀ e ∈ (main sampleStartNoBroker [envTimeout] sampleJunk).trace, e.isDeviceOpen = false) :=
  ⟨by decide,
    (connect_failure_precedes_device sampleStartNoBroker sampleJunk [envTimeout] (by decide)
      (by decide) (by decide)).1,
    (connect_failure_precedes_device sampleStartNoBroker sampleJunk [envTimeout] (by decide)
      (by decide) (by decide)).2.2.2⟩

/-- C7: sample runs of the four fatal classes end with the arguments 2
(`usage`, operand missing), -1 (`tty_connect`, no broker), 3 (device open
failure) and 1 (poll failure, hang-up) of `exit`; taken modulo 256 these are the
statuses 2, 255, 3 and 1, pairwise different and none of them 0. -/
theorem exit_statuses_distinct :
    (main sampleStartNoOperand [] sampleJunk).outcome = Outcome.exited EXIT_USAGE ∧
    (main sampleStartNoBroker [] sampleJunk).outcome = Outcome.exited EXIT_CONNECT ∧
    (main sampleStartNoDevice [] sampleJunk).outcome = Outcome.exited EXIT_OPEN ∧
    (main sampleStart [envPollFails] sampleJunk).outcome = Outcome.exited EXIT_POLL ∧
    (main sampleStart [envHangup] sampleJunk).outcome = Outcome.exited EXIT_POLL ∧
    [exitStatus EXIT_USAGE, exitStatus EXIT_CONNECT, exitStatus EXIT_OPEN, exitStatus EXIT_POLL]
      = [2, 255, 3, 1] ∧
    [exitStatus EXIT_USAGE, exitStatus EXIT_CONNECT, exitStatus EXIT_OPEN,
      exitStatus EXIT_POLL].Nodup ∧
    0 ∉ [exitStatus EXIT_USAGE, exitStatus EXIT_CONNECT, exitStatus EXIT_OPEN,
      exitStatus EXIT_POLL] := by
  decide

/-- C8: the code at the failing input.  In GPS mode `lgw_gps_enable` returns
-1 and stores nothing in `realdev`, which still holds the value 0 it had at the
entry of `main`: the test `realdev < 0` is false, there is no `exit(3)`, and
`main` enters the relay loop and polls descriptor 0. -/
theorem gps_failure_enters_relay_loop :
    sampleStartGpsFails.gpsStatus ≠ sampleStartGpsFails.LGW_GPS_SUCCESS ∧
    (main sampleStartGpsFails [envTimeout] sampleJunk).outcome = Outcome.running ∧
    (main sampleStartGpsFails [envTimeout] sampleJunk).trace =
      [Event.diag Diag.connecting,
       Event.connect defaultBusPath 0,
       Event.gpsEnable [47, 100, 101, 118, 47, 116, 116, 121, 83, 48] (-1),
       Event.diag Diag.gpsWarning,
       Event.poll [(0, POLLIN), (3, POLLIN)] 1000 0 [0, 0]] := by
  decide

/-- C9: the code at the failing input.  The main poll reports `POLLIN` on
both endpoints and nothing else; the write-readiness poll on the bus then
stores `POLLOUT` in `pfd[1].revents`, so the test `pfd[1].revents & POLLIN` of
line 179 is false: the iteration reads from the device only and never reads
from the bus. -/
theorem both_readable_serves_device_only :
    (test envBothReadable.mainPoll.revents0 POLLIN = true ∧
      test envBothReadable.mainPoll.revents1 POLLIN = true ∧
      fatal envBothReadable.mainPoll.revents0 = false ∧
      fatal envBothReadable.mainPoll.revents1 = false ∧
      pollConforms POLLOUT envBothReadable.busPoll) ∧
    (iteration envBothReadable sampleState).trace =
      [Event.poll [(4, POLLIN), (3, POLLIN)] 1000 2 [POLLIN, POLLIN],
       Event.read 4 BUFFER_SIZE 1 [65],
       Event.poll [(3, POLLOUT)] 50 1 [POLLOUT],
       Event.write 3 1 [65]] ∧
    readFds (iteration envBothReadable sampleState).trace = [4] ∧
    (iteration envBothReadable sampleState).outcome = Outcome.running := by
  decide

/-- C10: the code at the failing input.  `read` on the device fails with -1
and the bus is write-ready: the length passed to `write` is -1 converted to
`size_t`, 18446744073709551615, which exceeds the capacity 4096 of the
buffer. -/
theorem failed_read_write_count :
    (envReadFails.devRead.ret = -1 ∧ readConforms envReadFails.devRead ∧
      test envReadFails.busPoll.revents POLLOUT = true) ∧
    writeCounts (iteration envReadFails sampleState).trace = [18446744073709551615] ∧
    BUFFER_SIZE < 18446744073709551615 := by
  decide

end TtyAttach
